import Mathlib

/-
Shallow embedding of the chart service in src/app.py.

The service fetches OHLCV bars from the TwelveData provider (with a 60-second
in-memory TTL cache keyed by the request parameters), renders a candlestick
chart, and draws a trading-signal overlay (entry line, stop-loss line, take
profit lines, and a risk rectangle between entry and stop-loss).

Modelling conventions:
- timestamps and wall-clock times are integers (seconds);
- prices are rationals; a numeric field that failed pandas to_numeric coercion
  (NaN) is modelled as none, so each OHLCV field is an Option of a rational;
- the provider HTTP response is modelled as an Option ProviderJson: none means
  the body was not parseable as JSON (r.json() raised), and ProviderJson
  records whether the payload carried status == error and whether the values
  field was present;
- the network is not performed: the would-be response is an input, and each
  fetch reports, as a boolean, whether it reached the network-call point
  (requests.get on line 78 of app.py);
- raising HTTPException or any other exception is modelled by an Except error
  value threaded to the endpoint, which maps it to an HTTP status code.
-/

namespace ChartService

/-- One OHLCV row after pandas numeric coercion; a field that failed
to_numeric with coerce-errors (NaN) is none. -/
structure Bar where
  datetime : Int
  «open» : Option ℚ
  high : Option ℚ
  low : Option ℚ
  close : Option ℚ
  volume : Option ℚ
  deriving DecidableEq, Repr

/-- The DataFrame returned by fetch_twelvedata: an ordered list of bars. -/
abbrev Series := List Bar

/-- The cache key: every parameter of the provider request that appears in the
cache_key string on line 73 of app.py (format and order are constants and are
omitted). -/
structure CKey where
  symbol : String
  interval : String
  outputsize : Int
  timezone_name : String
  apikey : String
  deriving DecidableEq, Repr

/-- The process-wide _CACHE dict: an association list with unique keys, each
value paired with its fetched_at time. -/
abbrev Cache := List (CKey × Series × Int)

/-- The TTL constant from line 30 of app.py. -/
def _CACHE_TTL : Int := 60

/-- Dictionary lookup _CACHE.get(key). -/
def cacheLookup : Cache → CKey → Option (Series × Int)
  | [], _ => none
  | (k, v, ts) :: rest, key => if k = key then some (v, ts) else cacheLookup rest key

/-- Dictionary removal _CACHE.pop(key, None). -/
def cacheErase : Cache → CKey → Cache
  | [], _ => []
  | (k, v, ts) :: rest, key =>
    if k = key then cacheErase rest key else (k, v, ts) :: cacheErase rest key

/-- The _cache_get function (app.py lines 33-41): return the stored value if
its age is at most the TTL, otherwise pop the stale entry and report absence.
Returns the possibly mutated cache alongside the result. -/
def _cache_get (c : Cache) (key : CKey) (now : Int) : Option Series × Cache :=
  match cacheLookup c key with
  | none => (none, c)
  | some (value, ts) =>
    if now - ts > _CACHE_TTL then (none, cacheErase c key) else (some value, c)

/-- The _cache_set function (app.py lines 44-45): store the value with the
current time, overwriting any previous entry for the key. -/
def _cache_set (c : Cache) (key : CKey) (value : Series) (now : Int) : Cache :=
  (key, value, now) :: cacheErase c key

/-- The provider JSON body once r.json() succeeded: statusError records
whether status is present and equal to error (line 84), values is the parsed
values array when the field is present (line 86), with each row already taken
through the numeric coercion of lines 90-91. -/
structure ProviderJson where
  statusError : Bool
  values : Option (List Bar)
  deriving DecidableEq, Repr

/-- The error taxonomy of the fetch path. providerConfig, parseFail,
providerError and noValues are the HTTPExceptions raised inside
fetch_twelvedata (statuses 500, 502, 502, 502); keyError is the pandas
KeyError raised by df[c] on line 91 when the values list is empty, so the
DataFrame has no columns - it is not an HTTPException and is caught by the
generic handler of the endpoint. -/
inductive FetchErr where
  | providerConfig
  | parseFail
  | providerError
  | noValues
  | keyError
  deriving DecidableEq, Repr

/-- The normalized parameter set that forms the cache key, including the
outputsize clamp of line 61. -/
def cache_key (apikey symbol interval : String) (bars : Int)
    (timezone_name : String) : CKey :=
  ⟨symbol, interval, max 50 (min 5000 bars), timezone_name, apikey⟩

/-- Comparison used by df.sort_values on the datetime column. -/
def barLE (a b : Bar) : Prop := a.datetime ≤ b.datetime

instance : DecidableRel barLE :=
  fun a b => inferInstanceAs (Decidable (a.datetime ≤ b.datetime))

instance : IsTotal Bar barLE := ⟨fun a b => Int.le_total a.datetime b.datetime⟩

instance : IsTrans Bar barLE := ⟨fun _ _ _ h₁ h₂ => le_trans h₁ h₂⟩

/-- The outcome of one call to fetch_twelvedata: the result or the exception,
the cache state afterwards, and whether the network-call point (line 78) was
reached. -/
structure FetchOut where
  res : Except FetchErr Series
  cache : Cache
  netCall : Bool
  deriving Repr

/-- The fetch_twelvedata function (app.py lines 49-102). Checks the
credential, consults the cache, and otherwise validates the provider
response, coerces and sorts the rows, stores the result and returns it. -/
def fetch_twelvedata (apikey symbol interval : String) (bars : Int)
    (timezone_name : String) (cache : Cache) (now : Int)
    (provider : Option ProviderJson) : FetchOut :=
  if apikey = "" then ⟨.error .providerConfig, cache, false⟩
  else
    let key := cache_key apikey symbol interval bars timezone_name
    match _cache_get cache key now with
    | (some df, c₁) => ⟨.ok df, c₁, false⟩
    | (none, c₁) =>
      match provider with
      | none => ⟨.error .parseFail, c₁, true⟩
      | some data =>
        if data.statusError then ⟨.error .providerError, c₁, true⟩
        else
          match data.values with
          | none => ⟨.error .noValues, c₁, true⟩
          | some values =>
            if values = [] then ⟨.error .keyError, c₁, true⟩
            else
              let df := List.insertionSort barLE values
              ⟨.ok df, _cache_set c₁ key df now, true⟩

/-- One horizontal annotation produced by draw_signal_overlay: an axhline plus
its ax.text label placed at the x-position last_time. -/
structure Level where
  x : Int
  price : ℚ
  label : String
  deriving DecidableEq, Repr

/-- One rectangle produced by draw_signal_overlay: the patch anchored at
(last_time, lo) with height hi - lo. -/
structure Zone where
  x : Int
  lo : ℚ
  hi : ℚ
  deriving DecidableEq, Repr

/-- The annotations drawn on the price axis by draw_signal_overlay. -/
structure Overlay where
  levels : List Level
  zones : List Zone
  deriving DecidableEq, Repr

/-- The take-profit loop of draw_signal_overlay (app.py lines 129-133):
enumerate(tps, start=1), skipping None entries, drawing a line labelled TP
followed by the 1-based index for each supplied value. -/
def tpLevels (last_time : Int) : Nat → List (Option ℚ) → List Level
  | _, [] => []
  | i, none :: rest => tpLevels last_time (i + 1) rest
  | i, some tp :: rest =>
    ⟨last_time, tp, "  TP" ++ toString i⟩ :: tpLevels last_time (i + 1) rest

/-- The draw_signal_overlay function (app.py lines 105-133): an ENTRY line when
entry is supplied, an SL line when sl is supplied, one rectangle between
sorted([entry, sl]) when both are supplied, and one TP line per supplied
take-profit value. -/
def draw_signal_overlay (entry sl : Option ℚ) (tps : List (Option ℚ))
    (last_time : Int) : Overlay :=
  let entryLevels : List Level :=
    match entry with
    | some e => [⟨last_time, e, "  ENTRY"⟩]
    | none => []
  let slLevels : List Level :=
    match sl with
    | some s => [⟨last_time, s, "  SL"⟩]
    | none => []
  let zones : List Zone :=
    match entry, sl with
    | some e, some s => [⟨last_time, min e s, max e s⟩]
    | _, _ => []
  { levels := entryLevels ++ slLevels ++ tpLevels last_time 1 tps
    zones := zones }

/-- The query parameters of the /chart endpoint that the core logic inspects
(theme, volume and EMA toggles only affect rendering and are omitted). -/
structure ChartReq where
  symbol : String
  interval : String
  bars : Int
  ma : Option String
  entry : Option ℚ
  sl : Option ℚ
  tp1 : Option ℚ
  tp2 : Option ℚ
  tp3 : Option ℚ
  tz : String
  deriving Repr

/-- Python str.split on a comma: the list of comma-separated pieces, as
character lists. -/
def splitCommas : List Char → List (List Char)
  | [] => [[]]
  | c :: rest =>
    match splitCommas rest with
    | [] => if c = ',' then [[], []] else [[c]]
    | t :: ts => if c = ',' then [] :: t :: ts else (c :: t) :: ts

/-- Whitespace recognized by Python str.strip (the ASCII cases). -/
def isStripped (c : Char) : Bool := c = ' ' || c = '\t' || c = '\n' || c = '\r'

/-- Python str.strip: drop leading and trailing whitespace. -/
def strip (cs : List Char) : List Char :=
  ((cs.dropWhile isStripped).reverse.dropWhile isStripped).reverse

/-- Decimal digit run evaluated to a number; none when empty or when a
character is not a digit (Python int would raise ValueError). -/
def digitsVal (cs : List Char) : Option Nat :=
  if cs = [] then none
  else
    cs.foldl
      (fun acc c =>
        acc.bind (fun n => if c.isDigit then some (n * 10 + (c.toNat - 48)) else none))
      (some 0)

/-- Python int applied to an already stripped token: an optional sign then
decimal digits (digit-group underscores and non-ASCII digits are not
modelled). -/
def pyInt : List Char → Option Int
  | '-' :: rest => (digitsVal rest).map (fun n => -(n : Int))
  | '+' :: rest => (digitsVal rest).map (fun n => (n : Int))
  | cs => (digitsVal cs).map (fun n => (n : Int))

/-- The ma parameter parse of app.py line 205: split on commas, strip each
token, drop empty tokens, convert each remaining token to an integer; none
when any conversion raises. -/
def parse_ma (s : String) : Option (List Int) :=
  (((splitCommas s.toList).map strip).filter (fun t => t ≠ [])).mapM pyInt

/-- Whether the ma query parameter makes the endpoint raise the 400 of line
207: the parameter is truthy (present and non-empty) and fails to parse. -/
def maInvalid : Option String → Bool
  | none => false
  | some s => if s = "" then false else (parse_ma s).isNone

/-- The HTTP response of the /chart endpoint: a rendered PNG (carrying the
overlay that was drawn onto it, none when overlay drawing raised and was
suppressed) or an error status. -/
inductive ChartResult where
  | png : Option Overlay → ChartResult
  | httpError : Nat → ChartResult
  deriving DecidableEq, Repr

/-- The HTTP status each fetch error surfaces as: the HTTPExceptions raised in
fetch_twelvedata are re-raised unchanged by the endpoint (lines 192-193); any
other exception, such as the pandas KeyError, is converted to a 500 data
error by the generic handler (lines 194-195). -/
def errStatus : FetchErr → Nat
  | .providerConfig => 500
  | .parseFail => 502
  | .providerError => 502
  | .noValues => 502
  | .keyError => 500

/-- Placeholder bar for the total getLastD; the endpoint only reads the last
element of a series already checked non-empty. -/
def defaultBar : Bar := ⟨0, none, none, none, none, none⟩

/-- The /chart endpoint (app.py lines 169-252): fetch the data (mapping
exceptions to statuses), 404 on an empty frame, 400 on an invalid ma
parameter, then render, drawing the signal overlay at the last bar's
timestamp inside a try/except that suppresses any drawing failure
(lines 240-243). overlayRaises models whether drawing raises. -/
def chart (apikey : String) (req : ChartReq) (cache : Cache) (now : Int)
    (provider : Option ProviderJson) (overlayRaises : Bool) :
    ChartResult × Cache × Bool :=
  let out := fetch_twelvedata apikey req.symbol req.interval req.bars req.tz
    cache now provider
  match out.res with
  | .error e => (.httpError (errStatus e), out.cache, out.netCall)
  | .ok df =>
    if df = [] then (.httpError 404, out.cache, out.netCall)
    else if maInvalid req.ma then (.httpError 400, out.cache, out.netCall)
    else
      let lastTime := (df.getLastD defaultBar).datetime
      let ov : Option Overlay :=
        if overlayRaises then none
        else some (draw_signal_overlay req.entry req.sl [req.tp1, req.tp2, req.tp3]
          lastTime)
      (.png ov, out.cache, out.netCall)

/-- Sample bar used to exercise the definitions on concrete inputs. -/
def demoBar : Bar := ⟨5, some 1, some 2, some (1/2), some (3/2), none⟩

/-- Sample cache holding one entry stored at time 0 under the demo request
parameters. -/
def demoCache : Cache :=
  [(cache_key "k" "XAU/USD" "1h" 300 "UTC", [⟨5, some 1, some 2, some (1/2), some (3/2), none⟩], 0)]

/-- Sample bar with an earlier timestamp than demoBar. -/
def earlyBar : Bar := ⟨0, some 2, some 2, some 2, some 2, none⟩

/-- Sample well-formed provider payload holding one bar. -/
def demoJson : ProviderJson := ⟨false, some [demoBar]⟩

/-- Sample chart request: entry 100, stop-loss 90, first take-profit 110, no
moving averages requested. -/
def demoReq : ChartReq :=
  ⟨"XAU/USD", "1h", 300, none, some 100, some 90, some 110, none, none, "UTC"⟩

/-- Sample chart request whose ma parameter does not parse as a
comma-separated list of integers. -/
def badMaReq : ChartReq :=
  ⟨"XAU/USD", "1h", 300, some "20,xx", some 100, some 90, some 110, none, none, "UTC"⟩

/-- Two provider rows sharing one timestamp but differing in their prices. -/
def dupA : Bar := ⟨0, some 1, some 1, some 1, some 1, none⟩

/-- Second of the two provider rows sharing a timestamp. -/
def dupB : Bar := ⟨0, some 2, some 2, some 2, some 2, none⟩

lemma cacheLookup_set (c : Cache) (k : CKey) (v : Series) (t : Int) :
    cacheLookup (_cache_set c k v t) k = some (v, t) := by
  simp [_cache_set, cacheLookup]

lemma cache_get_fresh (c : Cache) (k : CKey) (now ts : Int) (v : Series)
    (hlook : cacheLookup c k = some (v, ts)) (h : ¬(now - ts > _CACHE_TTL)) :
    _cache_get c k now = (some v, c) := by
  simp [_cache_get, hlook, h]

lemma tpLevels_length (lt : Int) (i : Nat) (tps : List (Option ℚ)) :
    (tpLevels lt i tps).length = (tps.filterMap id).length := by
  induction tps generalizing i with
  | nil => rfl
  | cons hd tl ih => cases hd <;> simp [tpLevels, ih]

lemma tpLevels_mem (lt : Int) (tps : List (Option ℚ)) :
    ∀ (i : Nat) (lv : Level), lv ∈ tpLevels lt i tps →
      lv.x = lt ∧ ∃ j : Nat, lv.label = "  TP" ++ toString j := by
  induction tps with
  | nil => intro i lv h; cases h
  | cons hd tl ih =>
    intro i lv h
    cases hd with
    | none => exact ih (i + 1) lv h
    | some tp =>
      rcases List.mem_cons.mp h with h | h
      · subst h; exact ⟨rfl, i, rfl⟩
      · exact ih (i + 1) lv h

lemma fetch_miss_ok (apikey symbol interval : String) (bars : Int) (tz : String)
    (c : Cache) (now : Int) (p : Option ProviderJson) (s : Series)
    (hk : apikey ≠ "")
    (hres : (fetch_twelvedata apikey symbol interval bars tz c now p).res = .ok s)
    (hnet : (fetch_twelvedata apikey symbol interval bars tz c now p).netCall = true) :
    (fetch_twelvedata apikey symbol interval bars tz c now p).cache =
      _cache_set ((_cache_get c (cache_key apikey symbol interval bars tz) now).2)
        (cache_key apikey symbol interval bars tz) s now := by
  rcases hq : _cache_get c (cache_key apikey symbol interval bars tz) now with ⟨o, c₁⟩
  rcases o with _ | df
  · rcases p with _ | ⟨st, vals⟩
    · simp [fetch_twelvedata, if_neg hk, hq] at hres
    · rcases st
      · rcases vals with _ | vs
        · simp [fetch_twelvedata, if_neg hk, hq] at hres
        · by_cases hv : vs = []
          · simp [fetch_twelvedata, if_neg hk, hq, hv] at hres
          · simp [fetch_twelvedata, if_neg hk, hq, if_neg hv] at hres ⊢
            rw [hres]
      · simp [fetch_twelvedata, if_neg hk, hq] at hres
  · simp [fetch_twelvedata, if_neg hk, hq] at hnet

/-- C2: when both entry and stop-loss are supplied, draw_signal_overlay
produces exactly one risk rectangle spanning from the smaller to the larger
of the two prices, and swapping the two prices leaves the rectangle
unchanged. The function takes no direction parameter at all (neither does
the /chart endpoint), so the span cannot depend on a LONG or SHORT
direction. -/
theorem risk_zone_spans_minmax (e s : ℚ) (tps : List (Option ℚ)) (lt : Int) :
    (draw_signal_overlay (some e) (some s) tps lt).zones = [⟨lt, min e s, max e s⟩] ∧
    (draw_signal_overlay (some e) (some s) tps lt).zones =
      (draw_signal_overlay (some s) (some e) tps lt).zones := by
  constructor
  · simp [draw_signal_overlay]
  · simp [draw_signal_overlay, min_comm, max_comm]

/-- C3 counterexample: for entry 100, stop 90, one supplied target 110
(exactly the LONG example of the spec), the overlay contains only the risk
rectangle from 90 to 100 and no reward rectangle from entry 100 to the
target 110. -/
theorem reward_zone_missing_cex :
    (draw_signal_overlay (some 100) (some 90) [some 110, none, none] 0).zones
        = [⟨0, 90, 100⟩] ∧
    Zone.mk 0 100 110 ∉
      (draw_signal_overlay (some 100) (some 90) [some 110, none, none] 0).zones := by
  decide

/-- C3 amended: draw_signal_overlay never produces a reward rectangle. The
rectangles it draws do not depend on the supplied targets in any way, there
is at most one of them, and any rectangle drawn is the risk rectangle
between entry and stop-loss. Supplied targets only yield TP lines. -/
theorem zones_ignore_targets (entry sl : Option ℚ) (tps tps₂ : List (Option ℚ))
    (lt : Int) :
    (draw_signal_overlay entry sl tps lt).zones =
      (draw_signal_overlay entry sl tps₂ lt).zones ∧
    (draw_signal_overlay entry sl tps lt).zones.length ≤ 1 ∧
    ∀ z ∈ (draw_signal_overlay entry sl tps lt).zones,
      ∃ e s, entry = some e ∧ sl = some s ∧ z = ⟨lt, min e s, max e s⟩ := by
  rcases entry with _ | e <;> rcases sl with _ | s <;>
    simp [draw_signal_overlay]

/-- C5: on a provider payload whose values field is present but holds the
empty list, fetch_twelvedata raises the pandas KeyError of line 91 (reading
column open of a DataFrame with no columns), so the endpoint answers with
the generic 500 data-error response of line 195 rather than with the 404
no-data response of line 198, which is unreachable for this input. -/
theorem empty_values_keyerror_500 :
    (fetch_twelvedata "k" "XAU/USD" "1h" 300 "UTC" [] 0 (some ⟨false, some []⟩)).res
        = .error .keyError ∧
    (chart "k" demoReq [] 0 (some ⟨false, some []⟩) false).1 = .httpError 500 ∧
    (chart "k" demoReq [] 0 (some ⟨false, some []⟩) false).1 ≠ .httpError 404 := by
  exact ⟨rfl, rfl, by decide⟩

/-- C6: with an empty credential, every fetch fails with the provider
configuration error before reaching the network-call point (the reported
netCall flag is false, whatever the cache, clock or would-be provider
response), and the endpoint surfaces it as HTTP 500. -/
theorem missing_credential_config_error (symbol interval tz : String) (bars : Int)
    (c : Cache) (now : Int) (p : Option ProviderJson) (req : ChartReq) (b : Bool) :
    fetch_twelvedata "" symbol interval bars tz c now p
        = ⟨.error .providerConfig, c, false⟩ ∧
    errStatus .providerConfig = 500 ∧
    (chart "" req c now p b).1 = .httpError 500 := by
  refine ⟨rfl, rfl, ?_⟩
  simp [chart, fetch_twelvedata, errStatus]

/-- C9 counterexample: a full endpoint run with a successfully fetched
one-bar series and the signal entry 100, stop 90, target 110 renders an
overlay holding exactly the three trade levels ENTRY, SL and TP1 and the
risk rectangle; no additional last-price level derived from the most recent
close appears. The last bar enters the overlay only through its timestamp
(value 5 here), used as the x-position of the annotations. -/
theorem last_price_level_missing_cex :
    (chart "k" demoReq [] 0 (some demoJson) false).1 =
      ChartResult.png (some ⟨[⟨5, 100, "  ENTRY"⟩, ⟨5, 90, "  SL"⟩, ⟨5, 110, "  TP1"⟩],
        [⟨5, 90, 100⟩]⟩) := by
  decide

/-- C9 amended: every level drawn by draw_signal_overlay is anchored at the
timestamp of the last bar and labelled ENTRY, SL, or TP with an index; the
number of levels equals the number of supplied trade prices, so no extra
last-price level is ever produced. -/
theorem overlay_levels_trade_only (entry sl : Option ℚ) (tps : List (Option ℚ))
    (lt : Int) :
    (∀ lv ∈ (draw_signal_overlay entry sl tps lt).levels,
        lv.x = lt ∧ (lv.label = "  ENTRY" ∨ lv.label = "  SL" ∨
          ∃ i : Nat, lv.label = "  TP" ++ toString i)) ∧
    (draw_signal_overlay entry sl tps lt).levels.length =
      (if entry.isSome then 1 else 0) + (if sl.isSome then 1 else 0) +
        (tps.filterMap id).length := by
  constructor
  · intro lv hmem
    rcases entry with _ | e <;> rcases sl with _ | s <;>
      simp [draw_signal_overlay] at hmem
    · rcases (tpLevels_mem lt tps 1 lv hmem) with ⟨hx, j, hl⟩
      exact ⟨hx, Or.inr (Or.inr ⟨j, hl⟩)⟩
    · rcases hmem with hmem | hmem
      · subst hmem; exact ⟨rfl, Or.inr (Or.inl rfl)⟩
      · rcases (tpLevels_mem lt tps 1 lv hmem) with ⟨hx, j, hl⟩
        exact ⟨hx, Or.inr (Or.inr ⟨j, hl⟩)⟩
    · rcases hmem with hmem | hmem
      · subst hmem; exact ⟨rfl, Or.inl rfl⟩
      · rcases (tpLevels_mem lt tps 1 lv hmem) with ⟨hx, j, hl⟩
        exact ⟨hx, Or.inr (Or.inr ⟨j, hl⟩)⟩
    · rcases hmem with hmem | hmem | hmem
      · subst hmem; exact ⟨rfl, Or.inl rfl⟩
      · subst hmem; exact ⟨rfl, Or.inr (Or.inl rfl)⟩
      · rcases (tpLevels_mem lt tps 1 lv hmem) with ⟨hx, j, hl⟩
        exact ⟨hx, Or.inr (Or.inr ⟨j, hl⟩)⟩
  · rcases entry with _ | e <;> rcases sl with _ | s <;>
      simp [draw_signal_overlay, tpLevels_length] <;> omega

/-- C4 counterexample: when the provider returns two rows with the same
timestamp, the fetched series keeps both rows, so the returned series is
neither strictly ascending nor deduplicated, and in particular the earlier
occurrence is not dropped in favour of the later one. -/
theorem duplicate_timestamps_kept_cex :
    (fetch_twelvedata "k" "XAU/USD" "1h" 300 "UTC" [] 0
        (some ⟨false, some [dupA, dupB]⟩)).res = .ok [dupA, dupB] ∧
    dupA.datetime = dupB.datetime ∧ dupA ≠ dupB := by
  exact ⟨rfl, rfl, by decide⟩

/-- C4 amended: a freshly fetched series (one obtained through the network
branch) is sorted ascending by timestamp, allowing equal timestamps, and is
a permutation of the provider rows: nothing is dropped, so duplicate
timestamps survive. -/
theorem fetch_sorted_no_dedup (apikey symbol interval : String) (bars : Int)
    (tz : String) (c : Cache) (now : Int) (st : Bool) (values : List Bar)
    (s : Series)
    (hres : (fetch_twelvedata apikey symbol interval bars tz c now
        (some ⟨st, some values⟩)).res = .ok s)
    (hnet : (fetch_twelvedata apikey symbol interval bars tz c now
        (some ⟨st, some values⟩)).netCall = true) :
    List.Sorted barLE s ∧ s.Perm values := by
  by_cases hk : apikey = ""
  · rw [hk] at hres
    simp [fetch_twelvedata] at hres
  · rcases hq : _cache_get c (cache_key apikey symbol interval bars tz) now
      with ⟨o, c₁⟩
    rcases o with _ | df
    · rcases st
      · by_cases hv : values = []
        · simp [fetch_twelvedata, if_neg hk, hq, hv] at hres
        · simp [fetch_twelvedata, if_neg hk, hq, if_neg hv] at hres
          rw [← hres]
          exact ⟨List.sorted_insertionSort barLE values,
            List.perm_insertionSort barLE values⟩
      · simp [fetch_twelvedata, if_neg hk, hq] at hres
    · simp [fetch_twelvedata, if_neg hk, hq] at hnet

/-- Witness for the amended C4 theorem: a concrete fetch of two unsorted
rows returns them sorted by timestamp as a permutation of the input. -/
theorem fetch_sorted_no_dedup_witness :
    List.Sorted barLE [earlyBar, demoBar] ∧
      ([earlyBar, demoBar] : Series).Perm [demoBar, earlyBar] :=
  fetch_sorted_no_dedup "k" "XAU/USD" "1h" 300 "UTC" [] 0 false
    [demoBar, earlyBar] [earlyBar, demoBar] rfl rfl

/-- C7: on a cache miss with a configured credential, an unparseable provider
body, an explicit provider error status, or a missing values field each
yield a fetch error whose HTTP status is 502, and the endpoint answers 502
with no image produced. -/
theorem provider_response_error_502 (apikey : String) (req : ChartReq)
    (c : Cache) (now : Int) (p : Option ProviderJson) (b : Bool)
    (hk : apikey ≠ "")
    (hmiss : (_cache_get c
        (cache_key apikey req.symbol req.interval req.bars req.tz) now).1 = none)
    (hbad : p = none ∨ ∃ j, p = some j ∧ (j.statusError = true ∨ j.values = none)) :
    (∃ e, (fetch_twelvedata apikey req.symbol req.interval req.bars req.tz
        c now p).res = .error e ∧ errStatus e = 502) ∧
    (chart apikey req c now p b).1 = .httpError 502 := by
  rcases hq : _cache_get c
      (cache_key apikey req.symbol req.interval req.bars req.tz) now with ⟨o, c₁⟩
  rw [hq] at hmiss
  simp only at hmiss
  subst hmiss
  have hfetch : ∃ e, (fetch_twelvedata apikey req.symbol req.interval req.bars
      req.tz c now p).res = .error e ∧ errStatus e = 502 := by
    rcases hbad with hp | ⟨j, hp, hj⟩
    · subst hp
      exact ⟨.parseFail, by simp [fetch_twelvedata, if_neg hk, hq], rfl⟩
    · subst hp
      rcases j with ⟨jst, jvals⟩
      rcases hj with hj | hj
      · simp only at hj
        subst hj
        exact ⟨.providerError, by simp [fetch_twelvedata, if_neg hk, hq], rfl⟩
      · simp only at hj
        subst hj
        rcases jst
        · exact ⟨.noValues, by simp [fetch_twelvedata, if_neg hk, hq], rfl⟩
        · exact ⟨.providerError, by simp [fetch_twelvedata, if_neg hk, hq], rfl⟩
  refine ⟨hfetch, ?_⟩
  rcases hfetch with ⟨e, he, h502⟩
  simp only [chart]
  rw [he]
  simp [h502]

/-- Witness for C7: with an unparseable provider body, a configured
credential and an empty cache, the endpoint answers 502. -/
theorem provider_response_error_witness :
    (chart "k" demoReq [] 0 none false).1 = .httpError 502 :=
  (provider_response_error_502 "k" demoReq [] 0 none false (by decide) rfl
    (Or.inl rfl)).2

/-- C8 counterexample: a request whose ma parameter does not parse is
rejected with 400, yet the reported netCall flag of the same run is true:
the provider was fetched (and the upstream call made, the cache being
empty) before the parameter was validated, refuting the claim that the 400
is surfaced before any network call. -/
theorem invalid_ma_after_network_cex :
    (chart "k" badMaReq [] 0 (some demoJson) false).1 = .httpError 400 ∧
    (chart "k" badMaReq [] 0 (some demoJson) false).2.2 = true := by
  exact ⟨rfl, rfl⟩

/-- C8 amended: an unparseable ma parameter makes the endpoint answer 400,
but only after fetch_twelvedata has completed: the validation of line 205
runs after the fetch of line 191, so the network behaviour of the request
is exactly that of the fetch, which does issue an upstream call on a cache
miss. -/
theorem invalid_ma_400_after_fetch (apikey : String) (req : ChartReq)
    (c : Cache) (now : Int) (p : Option ProviderJson) (b : Bool) (df : Series)
    (hma : maInvalid req.ma = true)
    (hres : (fetch_twelvedata apikey req.symbol req.interval req.bars req.tz
        c now p).res = .ok df)
    (hne : df ≠ []) :
    (chart apikey req c now p b).1 = .httpError 400 ∧
    (chart apikey req c now p b).2.2 =
      (fetch_twelvedata apikey req.symbol req.interval req.bars req.tz
        c now p).netCall := by
  constructor <;>
    · simp only [chart]
      rw [hres]
      simp [hne, hma]

/-- Witness for the amended C8 theorem: the concrete bad-ma request is
answered 400 and its network behaviour is that of its fetch. -/
theorem invalid_ma_400_witness :
    (chart "k" badMaReq [] 0 (some demoJson) false).1 = .httpError 400 ∧
    (chart "k" badMaReq [] 0 (some demoJson) false).2.2 =
      (fetch_twelvedata "k" badMaReq.symbol badMaReq.interval badMaReq.bars
        badMaReq.tz [] 0 (some demoJson)).netCall :=
  invalid_ma_400_after_fetch "k" badMaReq [] 0 (some demoJson) false
    [demoBar] (by decide) rfl (by decide)

/-- C10: when the fetch succeeded with a non-empty series and the ma
parameter is valid, the endpoint returns a rendered PNG even when overlay
drawing raises (the exception is swallowed by the try block of lines
240-243 and the PNG simply lacks the overlay), and no value of the
overlay-failure flag can turn the response into an HTTP error. -/
theorem overlay_failure_suppressed (apikey : String) (req : ChartReq)
    (c : Cache) (now : Int) (p : Option ProviderJson) (df : Series)
    (hres : (fetch_twelvedata apikey req.symbol req.interval req.bars req.tz
        c now p).res = .ok df)
    (hne : df ≠ []) (hma : maInvalid req.ma = false) :
    (chart apikey req c now p true).1 = .png none ∧
    ∀ (b : Bool) (st : Nat), (chart apikey req c now p b).1 ≠ .httpError st := by
  constructor
  · simp only [chart]
    rw [hres]
    simp [hne, hma]
  · intro b st
    simp only [chart]
    rw [hres]
    cases b <;> simp [hne, hma]

/-- Witness for C10: the concrete request still yields a PNG when overlay
drawing raises. -/
theorem overlay_failure_suppressed_witness :
    (chart "k" demoReq [] 0 (some demoJson) true).1 = .png none :=
  (overlay_failure_suppressed "k" demoReq [] 0 (some demoJson) [demoBar]
    rfl (by decide) rfl).1

/-- C1: with a configured credential, (a) a fetch finding a cache entry whose
age is at most the 60-second TTL returns the stored series, leaves the cache
unchanged and reaches no network-call point; (b) a lookup finding an entry
older than the TTL evicts it and the fetch reaches the network-call point;
(c) after a fetch that succeeded through the network, a second fetch of the
same normalized parameters within the TTL window reaches no network-call
point, so the two fetches make at most one upstream call. -/
theorem cache_ttl_single_upstream
    (apikey symbol interval tz : String) (bars : Int) (hk : apikey ≠ "")
    (c : Cache) (s : Series) (ts t₁ t₂ : Int) (p₁ p₂ : Option ProviderJson) :
    (cacheLookup c (cache_key apikey symbol interval bars tz) = some (s, ts) →
      t₂ - ts ≤ _CACHE_TTL →
      fetch_twelvedata apikey symbol interval bars tz c t₂ p₂
        = ⟨.ok s, c, false⟩) ∧
    (cacheLookup c (cache_key apikey symbol interval bars tz) = some (s, ts) →
      t₂ - ts > _CACHE_TTL →
      _cache_get c (cache_key apikey symbol interval bars tz) t₂ =
        (none, cacheErase c (cache_key apikey symbol interval bars tz)) ∧
      (fetch_twelvedata apikey symbol interval bars tz c t₂ p₂).netCall = true) ∧
    ((∃ s₁, (fetch_twelvedata apikey symbol interval bars tz c t₁ p₁).res
        = .ok s₁) →
      t₂ - t₁ ≤ _CACHE_TTL →
      (fetch_twelvedata apikey symbol interval bars tz c t₁ p₁).netCall = true →
      (fetch_twelvedata apikey symbol interval bars tz
        (fetch_twelvedata apikey symbol interval bars tz c t₁ p₁).cache t₂ p₂).netCall
        = false) := by
  refine ⟨?_, ?_, ?_⟩
  · intro hlook hle
    have h60 : ¬(t₂ - ts > _CACHE_TTL) := by omega
    have hget : _cache_get c (cache_key apikey symbol interval bars tz) t₂
        = (some s, c) := by
      simp [_cache_get, hlook, h60]
    simp [fetch_twelvedata, if_neg hk, hget]
  · intro hlook hgt
    have hget : _cache_get c (cache_key apikey symbol interval bars tz) t₂
        = (none, cacheErase c (cache_key apikey symbol interval bars tz)) := by
      simp [_cache_get, hlook, hgt]
    refine ⟨hget, ?_⟩
    rcases p₂ with _ | ⟨st, vals⟩
    · simp [fetch_twelvedata, if_neg hk, hget]
    · rcases st
      · rcases vals with _ | vs
        · simp [fetch_twelvedata, if_neg hk, hget]
        · by_cases hv : vs = []
          · simp [fetch_twelvedata, if_neg hk, hget, hv]
          · simp [fetch_twelvedata, if_neg hk, hget, if_neg hv]
      · simp [fetch_twelvedata, if_neg hk, hget]
  · rintro ⟨s₁, hres⟩ hwin hnet₁
    have hcache := fetch_miss_ok apikey symbol interval bars tz c t₁ p₁ s₁
      hk hres hnet₁
    rw [hcache]
    have hlook₂ : cacheLookup
        (_cache_set ((_cache_get c (cache_key apikey symbol interval bars tz) t₁).2)
          (cache_key apikey symbol interval bars tz) s₁ t₁)
        (cache_key apikey symbol interval bars tz) = some (s₁, t₁) :=
      cacheLookup_set _ _ _ _
    have h60 : ¬(t₂ - t₁ > _CACHE_TTL) := by omega
    have hget₂ := cache_get_fresh
      (_cache_set ((_cache_get c (cache_key apikey symbol interval bars tz) t₁).2)
        (cache_key apikey symbol interval bars tz) s₁ t₁)
      (cache_key apikey symbol interval bars tz) t₂ t₁ s₁ hlook₂ h60
    simp [fetch_twelvedata, if_neg hk, hget₂]

/-- Witness for C1: a fetch at time 50 against a cache entry stored at time
0 (age 50, within the 60-second TTL) returns the stored series with no
upstream call, even with no provider response available. -/
theorem cache_ttl_witness :
    fetch_twelvedata "k" "XAU/USD" "1h" 300 "UTC" demoCache 50 none
      = ⟨.ok [demoBar], demoCache, false⟩ :=
  (cache_ttl_single_upstream "k" "XAU/USD" "1h" "UTC" 300 (by decide)
    demoCache [demoBar] 0 10 50 none none).1 rfl (by decide)

end ChartService
